import Mathlib

/-!
Verification of the tri-state optional boolean (`opt.Bool`, types/opt/bool.go)
and of the Windows host-information probes (`osVersionWindows`,
`packageTypeWindows`, `getUBR`) from the same repository, via a shallow
embedding in Lean.
-/

namespace Opt

/-- Type `opt.Bool` is a string-backed tri-state boolean: `"true"`, `"false"`,
or the empty string / `"unset"` for the unset state. -/
abbrev OptBool := String

/-- Structured errors produced by `opt.Bool`: `fmt.Errorf` calls carrying the
offending input.  `scanInvalidType t v` is `opt.Bool.Scan: invalid type %T: %v`
with the offending dynamic type name `t` and the value rendering `v`;
`invalidValue s` is `invalid opt.Bool value %q` carrying the offending raw
string/bytes `s`. -/
inductive OptErr where
  | scanInvalidType (typeName val : String)
  | invalidValue (raw : String)
deriving DecidableEq, Repr

/-- Embedding of `func (b *Bool) Set(v bool)`: `*b = Bool(strconv.FormatBool(v))`.
Go's `strconv.FormatBool` returns `"true"` for true and `"false"` for false.
Modelled as returning the new receiver value. -/
def Set (v : Bool) : OptBool :=
  if v then ("true" : String) else ("false" : String)

/-- Embedding of `func (b *Bool) Clear()`: `*b = ""`. -/
def Clear : OptBool := ("" : String)

/-- Embedding of `func (b Bool) Get() (v bool, ok bool)`: switch on the
backing string. -/
def Get (b : OptBool) : Bool × Bool :=
  if b = ("true" : String) then (true, true)
  else if b = ("false" : String) then (false, true)
  else (false, false)

/-- The dynamic value passed to `Scan(src any)`: `nil`, a Go `bool`, a Go
`int64` (modelled as an integer in `[-2^63, 2^63)`), or a value of any other
dynamic type, abstracted as its type name `%T` and value rendering `%v`. -/
inductive ScanSrc where
  | nil
  | boolean (v : Bool)
  | int64 (i : Int)
  | other (typeName val : String)
deriving DecidableEq, Repr

/-- Embedding of `func (b *Bool) Scan(src any) error`.  Modelled as taking the
receiver's prior value and returning the new receiver value together with the
optional error (`none` = Go `nil` error). -/
def Scan (b : OptBool) (src : ScanSrc) : OptBool × Option OptErr :=
  match src with
  | .nil => (("" : String), none)
  | .boolean v => (if v then ("true" : String) else ("false" : String), none)
  | .int64 i => (if i = 0 then ("false" : String) else ("true" : String), none)
  | .other t v => (b, some (.scanInvalidType t v))

/-- Embedding of `func (b Bool) EqualBool(v bool) bool`:
`p, ok := b.Get(); return ok && p == v`. -/
def EqualBool (b : OptBool) (v : Bool) : Bool :=
  let p := (Get b).1
  let ok := (Get b).2
  ok && (p == v)

/-- Embedding of `func (b Bool) MarshalJSON() ([]byte, error)`: switch over the
backing string, returning the JSON byte sequences `true` / `false` / `null`
(modelled as strings) or an `invalid opt.Bool value` error carrying the
string. -/
def MarshalJSON (b : OptBool) : Except OptErr String :=
  if b = ("true" : String) then .ok "true"
  else if b = ("false" : String) then .ok "false"
  else if b = ("" : String) ∨ b = ("unset" : String) then .ok "null"
  else .error (.invalidValue b)

/-- Embedding of `func (b *Bool) UnmarshalJSON(j []byte) error`: compares the
raw bytes (modelled as a string) against `true` / `false` / `null`.  Modelled
as taking the receiver's prior value and returning the new receiver value
together with the optional error. -/
def UnmarshalJSON (b : OptBool) (j : String) : OptBool × Option OptErr :=
  if j = "true" then (("true" : String), none)
  else if j = "false" then (("false" : String), none)
  else if j = "null" then (("unset" : String), none)
  else (b, some (.invalidValue j))

/-- Composite of the two codec directions: JSON-encode `v` with `MarshalJSON`
and, on success, JSON-decode the produced bytes into a receiver holding `b0`
with `UnmarshalJSON`, observing the decode error slot and the `Get` meaning of
the resulting value.  Returns `none` when encoding itself fails. -/
def roundTripResult (b0 v : OptBool) : Option (Option OptErr × (Bool × Bool)) :=
  match MarshalJSON v with
  | .ok j => some ((UnmarshalJSON b0 j).2, Get (UnmarshalJSON b0 j).1)
  | .error _ => none

end Opt

namespace Hostinfo

/-- Registry value types as far as `getUBR` distinguishes them: Go's
`registry.DWORD` against every other `valType` that
`key.GetIntegerValue` can report. -/
inductive RegType where
  | dword
  | other
deriving DecidableEq, Repr

/-- The error cases of `getUBR`: the `registry.OpenKey` error, the
`key.GetIntegerValue` error, and `registry.ErrUnexpectedType`. -/
inductive GetUBRErr where
  | openKeyFailed
  | getValueFailed
  | unexpectedType
deriving DecidableEq, Repr

/-- The Windows system state the version probe consults: the triple returned
by `windows.RtlGetNtVersionNumbers` (three `uint32` values, modelled as `Nat`),
whether `registry.OpenKey` on `SOFTWARE\Microsoft\Windows NT\CurrentVersion`
succeeds, and the result of `key.GetIntegerValue("UBR")` (`none` models a read
error; otherwise the `uint64` value and its registry value type). -/
structure WinEnv where
  ntMajor : Nat
  ntMinor : Nat
  ntBuild : Nat
  cvKeyOpens : Bool
  ubrValue : Option (Nat × RegType)
deriving DecidableEq, Repr

/-- Embedding of `func getUBR() (uint32, error)`: open the CurrentVersion
registry key, read the integer value "UBR", require its type to be
`registry.DWORD`, and truncate the `uint64` value to `uint32`. -/
def getUBR (env : WinEnv) : Except GetUBRErr Nat :=
  if env.cvKeyOpens then
    match env.ubrValue with
    | none => .error .getValueFailed
    | some (val, t) =>
      if t = .dword then .ok (val % 2 ^ 32) else .error .unexpectedType
  else .error .openKeyFailed

/-- The process-wide `winVerCache syncs.AtomicValue[string]`: `none` models
the zero state where `LoadOk` reports no stored value, `some s` the state
after `Store(s)`. -/
structure WinVerCache where
  cache : Option String
deriving DecidableEq, Repr

/-- Embedding of `func osVersionWindows() string`: return the cached string if
present; otherwise format `"MAJOR.MINOR.BUILD"` from the kernel version
numbers, append `"." ++ UBR` when the major version is 10 and `getUBR`
succeeds, store the result in the cache when it is non-empty, and return it.
Modelled with explicit state passing of the cache. -/
def osVersionWindows (env : WinEnv) (st : WinVerCache) : String × WinVerCache :=
  match st.cache with
  | some s => (s, st)
  | none =>
    let s0 := toString env.ntMajor ++ "." ++ toString env.ntMinor ++ "." ++ toString env.ntBuild
    let s :=
      if env.ntMajor = 10 then
        match getUBR env with
        | .ok ubr => s0 ++ "." ++ toString ubr
        | .error _ => s0
      else s0
    if s ≠ "" then (s, ⟨some s⟩) else (s, st)

/-- The string computed by one uncached run of `osVersionWindows`: the
`fmt.Sprintf` of the three kernel version numbers, with the UBR appended when
the major version is 10 and `getUBR` succeeds.  This is the body of
`osVersionWindows` after the cache miss, factored out for the statements. -/
def verString (env : WinEnv) : String :=
  let s0 := toString env.ntMajor ++ "." ++ toString env.ntMinor ++ "." ++ toString env.ntBuild
  if env.ntMajor = 10 then
    match getUBR env with
    | .ok ubr => s0 ++ "." ++ toString ubr
    | .error _ => s0
  else s0

/-- Model of Go's `filepath.Dir` as used on the result of `os.Executable()`:
everything before the final path separator (with no path cleaning, which the
probed property does not depend on). -/
def winDir (p : String) : String :=
  String.mk ((p.data.reverse.dropWhile (fun c => !(c == '\\' || c == '/'))).drop 1).reverse

/-- Model of Go's `filepath.Join(dir, name)` on Windows (no path cleaning). -/
def winJoin (dir name : String) : String := dir ++ "\\" ++ name

/-- The environment state the package-origin probe consults: whether
`os.Stat` finds the chocolatey install path
`C:\ProgramData\chocolatey\lib\tailscale`, the integer that
`winutil.GetRegInteger("MSI", 0)` evaluates to (the registry value, or the
default 0 on any read error), the result of `os.Executable()` (`none` models
an error), and the `os.Stat` existence oracle for any other path. -/
structure PkgEnv where
  chocoPathExists : Bool
  msiSentinel : Nat
  executable : Option String
  statExists : String → Bool

/-- Embedding of `func packageTypeWindows() string`: check the chocolatey
path, then the MSI registry sentinel, then the NSIS uninstaller next to the
running binary; return the empty string when none match or the binary's own
path cannot be determined. -/
def packageTypeWindows (env : PkgEnv) : String :=
  if env.chocoPathExists then "choco"
  else if env.msiSentinel = 1 then "msi"
  else
    match env.executable with
    | none => ""
    | some exe =>
      if env.statExists (winJoin (winDir exe) "Uninstall-Tailscale.exe") then "nsis"
      else ""

end Hostinfo

open Opt Hostinfo

/-- Helper: `osVersionWindows` on an empty cache computes `verString`,
stores it when non-empty, and leaves the cache empty otherwise. -/
theorem osVersionWindows_uncached (env : WinEnv) :
    osVersionWindows env ⟨none⟩ =
      (verString env,
        if verString env ≠ "" then ⟨some (verString env)⟩ else (⟨none⟩ : WinVerCache)) := by
  by_cases h : verString env = "" <;>
    simp only [osVersionWindows, verString] at h ⊢ <;>
    split_ifs <;> simp_all

/-- C2: `Get` is a total function on every `Bool` value: it returns
`(true, true)` exactly when the backing string is `"true"`, `(false, true)`
exactly when it is `"false"`, and `(false, false)` for every other string;
`Set true` then `Get` yields `(true, true)`, `Set false` then `Get` yields
`(false, true)`, and `Clear` then `Get` yields `(false, false)`. -/
theorem get_total_correct :
    (∀ b : OptBool,
      (Get b = (true, true) ↔ b = "true") ∧
      (Get b = (false, true) ↔ b = "false") ∧
      (b ≠ "true" → b ≠ "false" → Get b = (false, false))) ∧
    Get (Opt.Set true) = (true, true) ∧
    Get (Opt.Set false) = (false, true) ∧
    Get Clear = (false, false) := by
  refine ⟨fun b => ?_, rfl, rfl, rfl⟩
  unfold Get
  by_cases h1 : b = "true"
  · subst h1
    refine ⟨by simp, by simp, fun h _ => absurd rfl h⟩
  · by_cases h2 : b = "false"
    · subst h2
      exact ⟨by simp, by simp, fun _ h => absurd rfl h⟩
    · exact ⟨by simp [h1, h2], by simp [h1, h2], fun _ _ => by simp [h1, h2]⟩

/-- Witness for C2 at the invalid backing string `"x"`. -/
theorem get_total_correct_witness : Get "x" = (false, false) :=
  (get_total_correct.1 "x").2.2 (by decide) (by decide)

/-- C3: `EqualBool b v` returns true if and only if `Get b` returns
`(v, true)`; in particular it returns false whenever the value is unset or
invalid (`Get` reports `ok = false`), regardless of `v`. -/
theorem equalBool_correct :
    ∀ (b : OptBool) (v : Bool),
      (EqualBool b v = true ↔ Get b = (v, true)) ∧
      ((Get b).2 = false → EqualBool b v = false) := by
  intro b v
  unfold EqualBool Get
  split_ifs <;> cases v <;> simp

/-- Witness for C3 at the unset spelling `"unset"` against `true`. -/
theorem equalBool_correct_witness : EqualBool "unset" true = false :=
  (equalBool_correct "unset" true).2 (by decide)

/-- C4: `Scan` succeeds exactly for nil, boolean, and int64 inputs: nil
clears the value, booleans store `"true"`/`"false"`, an int64 stores
`"false"` when zero and `"true"` otherwise, and any other input type yields
an error naming the offending type and value (and no success). -/
theorem scan_correct :
    ∀ b : OptBool,
      Scan b .nil = ("", none) ∧
      (∀ v : Bool, Scan b (.boolean v) = (if v then "true" else "false", none)) ∧
      (∀ i : Int, Scan b (.int64 i) = (if i = 0 then "false" else "true", none)) ∧
      (∀ t v : String, Scan b (.other t v) = (b, some (.scanInvalidType t v))) ∧
      (∀ src : ScanSrc, (Scan b src).2 = none ↔ ∀ t v, src ≠ .other t v) := by
  intro b
  refine ⟨rfl, fun _ => rfl, fun _ => rfl, fun _ _ => rfl, fun src => ?_⟩
  cases src <;> simp [Scan]

/-- Witness for C4: `Scan` of nil on receiver `"x"` clears the value. -/
theorem scan_correct_witness : Scan "x" ScanSrc.nil = ("", none) :=
  (scan_correct "x").1

/-- C5: `MarshalJSON` returns the bytes `true` for `"true"`, `false` for
`"false"`, `null` for both `""` and `"unset"`, and an error carrying the
offending string for every other backing string; every successful encoding is
one of the three tokens `true`, `false`, `null`. -/
theorem marshalJSON_correct :
    MarshalJSON "true" = .ok "true" ∧
    MarshalJSON "false" = .ok "false" ∧
    MarshalJSON "" = .ok "null" ∧
    MarshalJSON "unset" = .ok "null" ∧
    (∀ b : OptBool, b ≠ "true" → b ≠ "false" → b ≠ "" → b ≠ "unset" →
      MarshalJSON b = .error (.invalidValue b)) ∧
    (∀ (b : OptBool) (j : String), MarshalJSON b = .ok j →
      j = "true" ∨ j = "false" ∨ j = "null") := by
  refine ⟨rfl, rfl, rfl, rfl, fun b h1 h2 h3 h4 => ?_, fun b j h => ?_⟩
  · simp [MarshalJSON, h1, h2, h3, h4]
  · unfold MarshalJSON at h
    split_ifs at h <;> cases h <;> simp

/-- Witness for C5 at the invalid backing string `"maybe"`. -/
theorem marshalJSON_correct_witness :
    MarshalJSON "maybe" = .error (.invalidValue "maybe") :=
  marshalJSON_correct.2.2.2.2.1 "maybe" (by decide) (by decide) (by decide) (by decide)

/-- C6: `UnmarshalJSON` succeeds exactly for the byte sequences `true`,
`false`, and `null`, storing `"true"`, `"false"`, and `"unset"` respectively,
and for every other byte sequence returns an error carrying the input bytes
(leaving the receiver as it was). -/
theorem unmarshalJSON_correct :
    (∀ b : OptBool, UnmarshalJSON b "true" = ("true", none)) ∧
    (∀ b : OptBool, UnmarshalJSON b "false" = ("false", none)) ∧
    (∀ b : OptBool, UnmarshalJSON b "null" = ("unset", none)) ∧
    (∀ (b : OptBool) (j : String), j ≠ "true" → j ≠ "false" → j ≠ "null" →
      UnmarshalJSON b j = (b, some (.invalidValue j))) := by
  refine ⟨fun b => rfl, fun b => rfl, fun b => rfl, fun b j h1 h2 h3 => ?_⟩
  simp [UnmarshalJSON, h1, h2, h3]

/-- Witness for C6 at the invalid input `"yes"`. -/
theorem unmarshalJSON_correct_witness :
    UnmarshalJSON "" "yes" = ("", some (.invalidValue "yes")) :=
  unmarshalJSON_correct.2.2.2 "" "yes" (by decide) (by decide) (by decide)

/-- C1: for every valid tri-state encoding `v` in
`{"true", "false", "", "unset"}` and every prior receiver value `b0`,
JSON-encoding `v` succeeds and JSON-decoding the produced bytes succeeds,
yielding a value whose `Get` result equals `Get v`. -/
theorem bool_roundtrip (v b0 : OptBool)
    (h : v = "true" ∨ v = "false" ∨ v = "" ∨ v = "unset") :
    roundTripResult b0 v = some (none, Get v) := by
  rcases h with h | h | h | h <;> subst h <;> rfl

/-- Witness for C1 at `v = "unset"`, prior receiver `""`. -/
theorem bool_roundtrip_witness :
    ("unset" = "true" ∨ "unset" = "false" ∨ "unset" = "" ∨
      ("unset" : OptBool) = "unset") ∧
    roundTripResult "" "unset" = some (none, Get "unset") :=
  ⟨by decide, bool_roundtrip "unset" "" (by decide)⟩

/-- C10: atomicity of the fallible decoders: whenever `Scan` or
`UnmarshalJSON` reports an error, the receiver value is left unchanged. -/
theorem decoder_atomicity :
    ∀ (b : OptBool) (src : ScanSrc) (j : String),
      ((Scan b src).2.isSome = true → (Scan b src).1 = b) ∧
      ((UnmarshalJSON b j).2.isSome = true → (UnmarshalJSON b j).1 = b) := by
  intro b src j
  constructor
  · cases src <;> simp [Scan]
  · unfold UnmarshalJSON
    split_ifs <;> simp

/-- Witness for C10 at a failing `Scan` (a string input) and a failing
`UnmarshalJSON` (the bytes `"yes"`), receiver `"true"`. -/
theorem decoder_atomicity_witness :
    (Scan "true" (ScanSrc.other "string" "hello")).1 = "true" ∧
    (UnmarshalJSON "true" "yes").1 = "true" :=
  ⟨(decoder_atomicity "true" (ScanSrc.other "string" "hello") "yes").1 (by decide),
   (decoder_atomicity "true" (ScanSrc.other "string" "hello") "yes").2 (by decide)⟩

/-- C7: version-probe caching invariant: a call that finds a cached string
returns it unchanged without consulting the system state; a call on an empty
cache that computes a non-empty string stores it, and every subsequent call
(under any system state) returns that exact string with the cache unchanged;
a computation yielding the empty string stores nothing. -/
theorem osVersion_caching :
    ∀ (env env' : WinEnv) (st : WinVerCache),
      (∀ s, st.cache = some s → osVersionWindows env st = (s, st)) ∧
      (st.cache = none → (osVersionWindows env st).1 ≠ "" →
        (osVersionWindows env st).2.cache = some (osVersionWindows env st).1 ∧
        osVersionWindows env' (osVersionWindows env st).2 =
          ((osVersionWindows env st).1, (osVersionWindows env st).2)) ∧
      (st.cache = none → (osVersionWindows env st).1 = "" →
        (osVersionWindows env st).2 = st) := by
  intro env env' st
  obtain ⟨c⟩ := st
  cases c with
  | some s =>
    refine ⟨fun t ht => ?_, fun h => ?_, fun h => ?_⟩
    · cases ht; rfl
    · exact absurd h (by simp)
    · exact absurd h (by simp)
  | none =>
    refine ⟨fun t ht => absurd ht (by simp), fun _ hne => ?_, fun _ he => ?_⟩
    · rw [osVersionWindows_uncached] at hne ⊢
      have hv : verString env ≠ "" := by simpa using hne
      rw [if_pos hv]
      exact ⟨rfl, rfl⟩
    · rw [osVersionWindows_uncached] at he ⊢
      have hv : verString env = "" := by simpa using he
      rw [if_neg (by simp [hv])]

/-- Witness for C7: an uncached call on a Windows 10 environment computes
and caches `"10.0.19041.388"`; a later call under a changed environment
returns the cached string with the cache unchanged. -/
theorem osVersion_caching_witness :
    ((⟨none⟩ : WinVerCache).cache = none) ∧
    ((osVersionWindows ⟨10, 0, 19041, true, some (388, RegType.dword)⟩ ⟨none⟩).1 ≠ "") ∧
    ((osVersionWindows ⟨10, 0, 19041, true, some (388, RegType.dword)⟩ ⟨none⟩).2.cache =
        some (osVersionWindows ⟨10, 0, 19041, true, some (388, RegType.dword)⟩ ⟨none⟩).1 ∧
      osVersionWindows ⟨99, 9, 9, false, none⟩
          (osVersionWindows ⟨10, 0, 19041, true, some (388, RegType.dword)⟩ ⟨none⟩).2 =
        ((osVersionWindows ⟨10, 0, 19041, true, some (388, RegType.dword)⟩ ⟨none⟩).1,
         (osVersionWindows ⟨10, 0, 19041, true, some (388, RegType.dword)⟩ ⟨none⟩).2)) :=
  ⟨rfl, by decide,
    (osVersion_caching ⟨10, 0, 19041, true, some (388, RegType.dword)⟩
        ⟨99, 9, 9, false, none⟩ ⟨none⟩).2.1 rfl (by decide)⟩

/-- C8: package-origin probe precedence and default: the chocolatey path
takes priority and yields `"choco"` regardless of the MSI flag or the
uninstaller file; otherwise an MSI sentinel of 1 yields `"msi"`; otherwise a
present NSIS uninstaller beside the running binary yields `"nsis"`; when none
of the three conditions hold, or the binary's own path cannot be determined,
the result is the empty string. -/
theorem packageType_correct :
    ∀ env : PkgEnv,
      (env.chocoPathExists = true → packageTypeWindows env = "choco") ∧
      (env.chocoPathExists = false → env.msiSentinel = 1 →
        packageTypeWindows env = "msi") ∧
      (env.chocoPathExists = false → env.msiSentinel ≠ 1 → env.executable = none →
        packageTypeWindows env = "") ∧
      (∀ exe, env.chocoPathExists = false → env.msiSentinel ≠ 1 →
        env.executable = some exe →
        env.statExists (winJoin (winDir exe) "Uninstall-Tailscale.exe") = true →
        packageTypeWindows env = "nsis") ∧
      (∀ exe, env.chocoPathExists = false → env.msiSentinel ≠ 1 →
        env.executable = some exe →
        env.statExists (winJoin (winDir exe) "Uninstall-Tailscale.exe") = false →
        packageTypeWindows env = "") := by
  intro env
  refine ⟨fun h1 => ?_, fun h1 h2 => ?_, fun h1 h2 h3 => ?_,
    fun exe h1 h2 h3 h4 => ?_, fun exe h1 h2 h3 h4 => ?_⟩
  · simp [packageTypeWindows, h1]
  · simp [packageTypeWindows, h1, h2]
  · simp [packageTypeWindows, h1, h2, h3]
  · simp [packageTypeWindows, h1, h2, h3, h4]
  · simp [packageTypeWindows, h1, h2, h3, h4]

/-- Witness for C8: with the chocolatey path present and the MSI sentinel
also set to 1, the probe still returns `"choco"`. -/
theorem packageType_correct_witness :
    ((⟨true, 1, none, fun _ => true⟩ : PkgEnv).chocoPathExists = true) ∧
    packageTypeWindows ⟨true, 1, none, fun _ => true⟩ = "choco" :=
  ⟨rfl, (packageType_correct ⟨true, 1, none, fun _ => true⟩).1 rfl⟩

/-- C9: best-effort UBR enrichment: `getUBR` succeeds exactly when the
registry key opens and the UBR value reads back with the DWORD type; on an
empty cache the version probe returns the four-segment string
`MAJOR.MINOR.BUILD.UBR` when the major version is 10 and `getUBR` succeeds,
and the three-segment `MAJOR.MINOR.BUILD` string whenever the major version
differs from 10 or `getUBR` fails; both probes return plain strings and
propagate no error. -/
theorem osVersion_ubr :
    ∀ (env : WinEnv) (st : WinVerCache), st.cache = none →
      ((∃ u, getUBR env = .ok u) ↔
        env.cvKeyOpens = true ∧ ∃ n, env.ubrValue = some (n, RegType.dword)) ∧
      (∀ u, env.ntMajor = 10 → getUBR env = .ok u →
        (osVersionWindows env st).1 =
          toString env.ntMajor ++ "." ++ toString env.ntMinor ++ "." ++
            toString env.ntBuild ++ "." ++ toString u) ∧
      ((env.ntMajor ≠ 10 ∨ ∃ e, getUBR env = .error e) →
        (osVersionWindows env st).1 =
          toString env.ntMajor ++ "." ++ toString env.ntMinor ++ "." ++
            toString env.ntBuild) := by
  intro env st hst
  obtain ⟨c⟩ := st
  cases hst
  have h1 : (osVersionWindows env ⟨none⟩).1 = verString env := by
    rw [osVersionWindows_uncached]
  refine ⟨?_, fun u hm hg => ?_, fun h => ?_⟩
  · obtain ⟨M, N, B, k, uv⟩ := env
    cases k <;> rcases uv with _ | ⟨n, t⟩ <;> try cases t
    all_goals simp [getUBR]
  · rw [h1]
    simp [verString, hm, hg]
  · rw [h1]
    rcases h with hm | ⟨e, he⟩
    · simp [verString, hm]
    · simp [verString, he]

/-- Witness for C9: on a Windows 10 environment whose UBR reads back 388 as
a DWORD, the uncached probe returns the four-segment `"10.0.19041.388"`. -/
theorem osVersion_ubr_witness :
    ((⟨none⟩ : WinVerCache).cache = none) ∧
    getUBR ⟨10, 0, 19041, true, some (388, RegType.dword)⟩ = .ok 388 ∧
    (osVersionWindows ⟨10, 0, 19041, true, some (388, RegType.dword)⟩ ⟨none⟩).1 =
      "10.0.19041.388" :=
  ⟨rfl, rfl,
    ((osVersion_ubr ⟨10, 0, 19041, true, some (388, RegType.dword)⟩ ⟨none⟩ rfl).2.1
        388 rfl rfl).trans (by decide)⟩
